import Mathlib

/-!
Shallow embedding of the transactional ledger engine and trust-gated
ingestion pipeline of `src/main.py` (a Telegram-driven shared running-total
ledger), together with proofs about the spec's claims.

Modelling conventions:
* SQLite rows become Lean structures; tables become lists kept newest-first
  (so `ORDER BY id DESC LIMIT 1` is `List.head?`), with autoincrement ids
  tracked via `next_*_id` counters.
* Python `Decimal` arithmetic with `ROUND_HALF_UP` becomes exact rational
  arithmetic with `roundHalfUp` (ties away from zero), which is exact for
  all decimal inputs.
* Timestamps are integers (seconds); `timedelta(days=d)` is `d * 86400`.
* Python string truthiness (`a or b`) is modelled by `firstNonempty`.
-/

namespace YozuTracker

/-- Floor of a rational, written on the numerator/denominator representation
(equal to `Int.floor`, see `ratFloor_eq_floor`). -/
def ratFloor (q : ℚ) : ℤ := q.num / (q.den : ℤ)

/-- Python `Decimal` `ROUND_HALF_UP` on an exact rational: round to the
nearest integer with ties going away from zero. -/
def roundHalfUp (q : ℚ) : ℤ :=
  if q < 0 then -(ratFloor (-q + 1/2)) else ratFloor (q + 1/2)

/-- `money_to_cents` (src/main.py:379): parse a user-entered amount string.
`none` models a string `Decimal` cannot parse; `some q` models the exact
decimal value parsed. Rejects negative results only. -/
def money_to_cents (amount : Option ℚ) : Except String ℤ :=
  match amount with
  | none => Except.error "InvalidOperation"
  | some amt =>
    let cents := roundHalfUp (amt * 100)
    if cents < 0 then Except.error "Negative amount not allowed"
    else Except.ok cents

/-- `compute_fee_net` (src/main.py:392): fee and flat network fee are
quantized to 0.01 with ROUND_HALF_UP in dollars, net likewise, then each is
converted to integer cents with ROUND_HALF_UP; net is clamped at 0. -/
def compute_fee_net (feePct networkFee : ℚ) (total_cents : ℤ) : ℤ × ℤ × ℤ :=
  let total : ℚ := (total_cents : ℚ) / 100
  let fee : ℚ := (roundHalfUp (total * feePct * 100) : ℚ) / 100
  let network_fee : ℚ := (roundHalfUp (networkFee * 100) : ℚ) / 100
  let net : ℚ := (roundHalfUp ((total - fee - network_fee) * 100) : ℚ) / 100
  let fee_cents : ℤ := roundHalfUp (fee * 100)
  let network_fee_cents : ℤ := roundHalfUp (network_fee * 100)
  let net_cents : ℤ := roundHalfUp (net * 100)
  (fee_cents, network_fee_cents, if net_cents < 0 then 0 else net_cents)

/-- Default `FEE_PCT` (src/main.py:40): 0.02. -/
def FEE_PCT_DEFAULT : ℚ := 2 / 100

/-- Default `NETWORK_FEE` (src/main.py:41): 0.30. -/
def NETWORK_FEE_DEFAULT : ℚ := 30 / 100

/-- `CONFIRM_WINDOW_SECONDS` (src/main.py:135). -/
def CONFIRM_WINDOW_SECONDS : ℤ := 24 * 60 * 60

/-- `GMAIL_ZELLE_AUTO_PROMOTE_DAYS` default (src/main.py:101), in seconds
(`timedelta(days=14)`). -/
def AUTO_PROMOTE_SECONDS : ℤ := 14 * 24 * 60 * 60

/-- First truthy (nonempty) string of a list, else `""` — models Python
`str(a or b or ... or "")` chains over plain strings. -/
def firstNonempty : List String → String
  | [] => ""
  | v :: rest => if v = "" then firstNonempty rest else v

/-- First truthy element of a list of optional strings, else `""` — models
`str(x.get("a") or x.get("b") or "")` where missing keys give `None`. -/
def firstNonemptyOpt : List (Option String) → String
  | [] => ""
  | none :: rest => firstNonemptyOpt rest
  | some v :: rest => if v = "" then firstNonemptyOpt rest else v

/-- `value or None` for strings: empty becomes `NULL`. -/
def strOrNone (v : String) : Option String :=
  if v = "" then none else some v

/-- `int(x) if row and row[k] else None`: SQL NULL or 0 become `None`. -/
def pyTruthyInt (o : Option ℤ) : Option ℤ :=
  match o with
  | none => none
  | some v => if v = 0 then none else some v

/-- Python `str.strip()`: drop leading and trailing whitespace (written on
the character list so that it evaluates in the kernel). -/
def pyStrip (s : String) : String :=
  String.mk (((s.data.dropWhile Char.isWhitespace).reverse.dropWhile
    Char.isWhitespace).reverse)

/-- Python `str.lower()` (ASCII case folding, as `Char.toLower`). -/
def pyLower (s : String) : String :=
  String.mk (s.data.map Char.toLower)

/-- `_normalize_sender_email` / `_normalize_identity_key`
(src/main.py:676,680): strip + lowercase. -/
def normalizeKey (s : String) : String :=
  pyLower (pyStrip s)

/-- One row of `movements` (append-only ledger log). -/
structure Movement where
  id : ℕ
  session_id : ℕ
  kind : String
  amount_cents : ℤ
  total_after_cents : ℤ
  actor_id : ℤ
  created_at : ℤ
  deriving Repr, DecidableEq

/-- One row of `confirmations` (keyed by `movement_id`). -/
structure Confirmation where
  movement_id : ℕ
  actor_id : ℤ
  amount_cents : ℤ
  created_at : ℤ
  expires_at : ℤ
  is_confirmed : Bool
  confirmed_at : Option ℤ
  confirmed_by : Option ℤ
  confirm_chat_id : Option ℤ
  confirm_message_id : Option ℤ
  deriving Repr, DecidableEq

/-- One row of `gmail_sender_trust`. -/
structure SenderTrust where
  id : ℕ
  sender_email : String
  state : String
  first_seen_at : ℤ
  last_seen_at : ℤ
  seen_count : ℤ
  auto_promote_at : Option ℤ
  approved_at : Option ℤ
  approved_by : Option ℤ
  blocked_at : Option ℤ
  blocked_by : Option ℤ
  last_matched_amount_cents : ℤ
  last_matched_message_id : String
  display_name_hint : Option String
  deriving Repr, DecidableEq

/-- The structured JSON metadata blob stored in
`gmail_processed_messages.notes` (every key that the code reads or writes). -/
structure Notes where
  source_kind : Option String := none
  confirmation_number : Option String := none
  payer_key : Option String := none
  payer_display : Option String := none
  bank_sender_email : Option String := none
  to_line : Option String := none
  parser : Option String := none
  identity_key : Option String := none
  identity_display : Option String := none
  is_new_sender : Option Bool := none
  auto_promoted : Option Bool := none
  duplicate_reason : Option String := none
  duplicate_of_gmail_message_id : Option String := none
  deriving Repr, DecidableEq

/-- One row of `gmail_processed_messages` (the idempotency anchor). -/
structure ProcessedMsg where
  gmail_message_id : String
  gmail_thread_id : String
  sender_email : String
  subject : String
  parsed_amount_cents : Option ℤ
  parsed_sender_name : String
  status : String
  movement_id : Option ℕ
  processed_at : ℤ
  notes : Option Notes
  deriving Repr, DecidableEq

/-- One row of `gmail_reversals`. -/
structure Reversal where
  id : ℕ
  gmail_message_id : String
  original_movement_id : ℕ
  reversal_movement_id : ℕ
  payer_key : Option String
  payer_display : Option String
  amount_cents : ℤ
  reason : String
  reversed_by : ℤ
  reversed_at : ℤ
  deriving Repr, DecidableEq

/-- One row of `releases`. -/
structure ReleaseRow where
  id : ℕ
  session_id : ℕ
  released_total_cents : ℤ
  fee_cents : ℤ
  network_fee_cents : ℤ
  net_cents : ℤ
  released_by : ℤ
  released_at : ℤ
  deriving Repr, DecidableEq

/-- The durable store: `global_state` (singleton row id=1) plus the tables
the core mutates. Lists are newest-first; `next_*_id` model sqlite
autoincrement. -/
structure DBState where
  total_cents : ℤ
  session_id : ℕ
  movements : List Movement
  next_movement_id : ℕ
  confirmations : List Confirmation
  releases : List ReleaseRow
  next_release_id : ℕ
  processed : List ProcessedMsg
  sender_trust : List SenderTrust
  next_trust_id : ℕ
  reversals : List Reversal
  next_reversal_id : ℕ
  deriving Repr, DecidableEq

/-- `INSERT OR IGNORE INTO global_state(id, total_cents, session_id)
VALUES (1, 0, 1)` (src/main.py:228) with all tables empty. -/
def initState : DBState :=
  { total_cents := 0
    session_id := 1
    movements := []
    next_movement_id := 1
    confirmations := []
    releases := []
    next_release_id := 1
    processed := []
    sender_trust := []
    next_trust_id := 1
    reversals := []
    next_reversal_id := 1 }

/-- The canonical parsed Gmail Zelle event handed to the pipeline
(the `parsed` dict of `process_gmail_zelle_parsed_tx`). -/
structure ParsedEvent where
  gmail_message_id : String
  thread_id : String
  sender_email : String
  identity_key : String
  identity_display : String
  payer_display : String
  sender_display_name : String
  subject : String
  source_kind : String
  confirmation_number : String
  payer_key : String
  bank_sender_email : String
  to_line : String
  amount_cents : ℤ
  deriving Repr, DecidableEq

/-- `add_amount_with_confirmation` (src/main.py:1739): read total/session,
add, update total, append an `add` movement, `INSERT OR REPLACE` the
confirmation row keyed by the movement id. Returns
`(movement_id, new_total_cents)`. -/
def add_amount_with_confirmation (now : ℤ) (actor_id : ℤ) (add_cents : ℤ)
    (s : DBState) : (ℕ × ℤ) × DBState :=
  let total_cents := s.total_cents + add_cents
  let movement_id := s.next_movement_id
  let mv : Movement :=
    { id := movement_id, session_id := s.session_id, kind := "add",
      amount_cents := add_cents, total_after_cents := total_cents,
      actor_id := actor_id, created_at := now }
  let conf : Confirmation :=
    { movement_id := movement_id, actor_id := actor_id,
      amount_cents := add_cents, created_at := now,
      expires_at := now + CONFIRM_WINDOW_SECONDS, is_confirmed := false,
      confirmed_at := none, confirmed_by := none,
      confirm_chat_id := none, confirm_message_id := none }
  ((movement_id, total_cents),
    { s with
      total_cents := total_cents
      movements := mv :: s.movements
      next_movement_id := movement_id + 1
      confirmations :=
        conf :: s.confirmations.filter (fun c => c.movement_id ≠ movement_id) })

/-- Summary dict returned by `release_current_total`. -/
structure ReleaseSummary where
  session_id : ℕ
  total_cents : ℤ
  fee_cents : ℤ
  network_fee_cents : ℤ
  net_cents : ℤ
  deriving Repr, DecidableEq

/-- `release_current_total` (src/main.py:1779): no-op when `total <= 0`;
otherwise insert a release row, append a `release` movement recording the
pre-reset total, zero the total and advance the session. -/
def release_current_total (feePct networkFee : ℚ) (now : ℤ) (actor_id : ℤ)
    (s : DBState) : Option ReleaseSummary × DBState :=
  if s.total_cents ≤ 0 then (none, s)
  else
    let fees := compute_fee_net feePct networkFee s.total_cents
    let fee_cents := fees.1
    let network_fee_cents := fees.2.1
    let net_cents := fees.2.2
    let rel : ReleaseRow :=
      { id := s.next_release_id, session_id := s.session_id,
        released_total_cents := s.total_cents, fee_cents := fee_cents,
        network_fee_cents := network_fee_cents, net_cents := net_cents,
        released_by := actor_id, released_at := now }
    let mv : Movement :=
      { id := s.next_movement_id, session_id := s.session_id,
        kind := "release", amount_cents := s.total_cents,
        total_after_cents := 0, actor_id := actor_id, created_at := now }
    (some { session_id := s.session_id, total_cents := s.total_cents,
            fee_cents := fee_cents, network_fee_cents := network_fee_cents,
            net_cents := net_cents },
      { s with
        total_cents := 0
        session_id := s.session_id + 1
        releases := rel :: s.releases
        next_release_id := s.next_release_id + 1
        movements := mv :: s.movements
        next_movement_id := s.next_movement_id + 1 })

/-- Metadata dict returned by `undo_last_movement_tx`. -/
inductive UndoInfo where
  | add (amount_cents new_total_cents : ℤ)
      (confirm_chat_id confirm_message_id : Option ℤ)
  | release (restored_total_cents : ℤ) (restored_session_id : ℕ)
  | reversal (undone_amount_cents new_total_cents : ℤ)
      (gmail_message_id : Option String)
  | unknown
  deriving Repr, DecidableEq

/-- `undo_last_movement_tx` (src/main.py:1827): inspect the most recent
movement (highest id) and apply the kind-specific compensating action. -/
def undo_last_movement_tx (s : DBState) : Option UndoInfo × DBState :=
  match s.movements.head? with
  | none => (none, s)
  | some last =>
    if last.kind = "add" then
      let s1 : DBState :=
        if s.session_id ≠ last.session_id then
          { s with session_id := last.session_id }
        else s
      let new_total :=
        if s.total_cents - last.amount_cents < 0 then 0
        else s.total_cents - last.amount_cents
      let conf := s.confirmations.find? (fun c => c.movement_id = last.id)
      (some (UndoInfo.add last.amount_cents new_total
          (pyTruthyInt (conf.bind (fun c => c.confirm_chat_id)))
          (pyTruthyInt (conf.bind (fun c => c.confirm_message_id)))),
        { s1 with
          confirmations :=
            s1.confirmations.filter (fun c => c.movement_id ≠ last.id)
          total_cents := new_total
          movements := s1.movements.filter (fun m => m.id ≠ last.id) })
    else if last.kind = "release" then
      let s1 : DBState :=
        { s with session_id := last.session_id,
                 total_cents := last.amount_cents }
      let relRow := s.releases.find? (fun r => r.session_id = last.session_id)
      let s2 : DBState :=
        match relRow with
        | some r =>
          { s1 with releases := s1.releases.filter (fun x => x.id ≠ r.id) }
        | none => s1
      (some (UndoInfo.release last.amount_cents last.session_id),
        { s2 with movements := s2.movements.filter (fun m => m.id ≠ last.id) })
    else if last.kind = "reversal" then
      let new_total := s.total_cents + last.amount_cents
      let rev := s.reversals.find? (fun r => r.reversal_movement_id = last.id)
      let s1 : DBState := { s with total_cents := new_total }
      let s2 : DBState :=
        match rev with
        | some r =>
          { s1 with reversals := s1.reversals.filter (fun x => x.id ≠ r.id) }
        | none => s1
      (some (UndoInfo.reversal last.amount_cents new_total
          (rev.map (fun r => r.gmail_message_id))),
        { s2 with movements := s2.movements.filter (fun m => m.id ≠ last.id) })
    else
      (some UndoInfo.unknown, s)

/-- Result dict of `admin_reverse_gmail_event_tx`. -/
inductive ReverseResult where
  | invalid
  | missing
  | already_reversed
  | missing_original_movement
  | invalid_amount
  | reversed (gmail_message_id : String) (amount_cents : ℤ)
      (payer_key payer_display : String) (new_total_cents : ℤ)
      (reversal_movement_id : ℕ) (blocked_applied : Bool)
  deriving Repr, DecidableEq

/-- `admin_reverse_gmail_event_tx` (src/main.py:1360ish): privileged
compensating entry for a previously auto-added Gmail event. -/
def admin_reverse_gmail_event_tx (now : ℤ) (gmail_message_id : String)
    (acting_user_id : ℤ) (block_payer : Bool) (s : DBState) :
    ReverseResult × DBState :=
  let msg_id := pyStrip gmail_message_id
  if msg_id = "" then (ReverseResult.invalid, s)
  else
    match s.processed.find? (fun g =>
        g.gmail_message_id = msg_id && g.status = "added" &&
        g.movement_id.isSome) with
    | none => (ReverseResult.missing, s)
    | some row =>
      if (s.reversals.find? (fun r => r.gmail_message_id = msg_id)).isSome then
        (ReverseResult.already_reversed, s)
      else
        let original_movement_id := row.movement_id.getD 0
        if (s.movements.find? (fun m => m.id = original_movement_id)).isNone
        then (ReverseResult.missing_original_movement, s)
        else
          let amount_cents := row.parsed_amount_cents.getD 0
          if amount_cents ≤ 0 then (ReverseResult.invalid_amount, s)
          else
            let meta := row.notes
            let payer_key :=
              pyStrip (firstNonemptyOpt [meta.bind (fun m => m.payer_key),
                meta.bind (fun m => m.identity_key)])
            let payer_display :=
              pyStrip (firstNonemptyOpt [meta.bind (fun m => m.payer_display),
                meta.bind (fun m => m.identity_display)])
            let new_total0 := s.total_cents - amount_cents
            let new_total := if new_total0 < 0 then 0 else new_total0
            let reversal_movement_id := s.next_movement_id
            let mv : Movement :=
              { id := reversal_movement_id, session_id := s.session_id,
                kind := "reversal", amount_cents := amount_cents,
                total_after_cents := new_total, actor_id := acting_user_id,
                created_at := now }
            let rev : Reversal :=
              { id := s.next_reversal_id, gmail_message_id := msg_id,
                original_movement_id := original_movement_id,
                reversal_movement_id := reversal_movement_id,
                payer_key := strOrNone payer_key,
                payer_display := strOrNone payer_display,
                amount_cents := amount_cents, reason := "admin_reverse",
                reversed_by := acting_user_id, reversed_at := now }
            let doBlock := block_payer && payer_key ≠ ""
            let blocked_applied := doBlock &&
              (s.sender_trust.any (fun t => t.sender_email = payer_key))
            let trust' :=
              if doBlock then
                s.sender_trust.map (fun t =>
                  if t.sender_email = payer_key then
                    { t with state := "blocked", blocked_at := some now,
                             blocked_by := some acting_user_id,
                             auto_promote_at := none }
                  else t)
              else s.sender_trust
            (ReverseResult.reversed msg_id amount_cents payer_key
                payer_display new_total reversal_movement_id blocked_applied,
              { s with
                total_cents := new_total
                movements := mv :: s.movements
                next_movement_id := reversal_movement_id + 1
                reversals := rev :: s.reversals
                next_reversal_id := s.next_reversal_id + 1
                sender_trust := trust' })

/-- `_gmail_bask_metadata_from_parsed` (src/main.py:752). -/
def gmailBaskMetadata (parsed : ParsedEvent) : Notes :=
  { source_kind := some "bask_zelle"
    confirmation_number := some parsed.confirmation_number
    payer_key := some parsed.payer_key
    payer_display := some parsed.payer_display
    bank_sender_email := some parsed.bank_sender_email
    to_line := some parsed.to_line
    parser := some "bask_strict_v1" }

/-- `_insert_gmail_processed_message_in_conn` (src/main.py:808). -/
def insertGmailProcessed (now : ℤ) (parsed : ParsedEvent) (status : String)
    (movement_id : Option ℕ) (notes : Option Notes) (s : DBState) : DBState :=
  { s with processed :=
      { gmail_message_id := parsed.gmail_message_id
        gmail_thread_id := parsed.thread_id
        sender_email := normalizeKey parsed.sender_email
        subject := parsed.subject
        parsed_amount_cents := some parsed.amount_cents
        parsed_sender_name := parsed.sender_display_name
        status := status
        movement_id := movement_id
        processed_at := now
        notes := notes } :: s.processed }

/-- `_find_gmail_processed_by_bask_confirmation_in_conn` (src/main.py:781):
secondary-business-key dedup by (bask confirmation number, amount). -/
def findBaskDuplicate (confirmation_number : String) (amount_cents : ℤ)
    (processed : List ProcessedMsg) : Option ProcessedMsg :=
  let conf := pyStrip confirmation_number
  if conf = "" || amount_cents ≤ 0 then none
  else
    processed.find? (fun row =>
      match row.parsed_amount_cents, row.notes with
      | some a, some m =>
        a = amount_cents &&
        (m.source_kind.getD "") = "bask_zelle" &&
        pyStrip (m.confirmation_number.getD "") = conf
      | _, _ => false)

/-- The normalized identity key the pipeline uses
(`_normalize_identity_key(parsed.get("identity_key")) or sender_email`). -/
def identityKeyOf (parsed : ParsedEvent) : String :=
  let sender_email := normalizeKey parsed.sender_email
  let k := normalizeKey parsed.identity_key
  if k = "" then sender_email else k

/-- The display identity string computed at the top of
`process_gmail_zelle_parsed_tx` (src/main.py:1486). -/
def identityDisplayOf (parsed : ParsedEvent) : String :=
  pyStrip (firstNonempty [parsed.identity_display, parsed.payer_display,
    parsed.sender_display_name, normalizeKey parsed.sender_email])

/-- Result dict of `process_gmail_zelle_parsed_tx`; only the keys the code
sets, optional keys default to `none`. -/
structure ProcResult where
  status : String
  reason : Option String := none
  previous_status : Option String := none
  movement_id : Option ℕ := none
  duplicate_reason : Option String := none
  duplicate_of_gmail_message_id : Option String := none
  sender_trust_id : Option ℕ := none
  sender_email : Option String := none
  payer_display : Option String := none
  auto_promoted : Option Bool := none
  is_new_sender : Option Bool := none
  state : Option String := none
  new_total_cents : Option ℤ := none
  actor_id : Option ℤ := none
  deriving Repr, DecidableEq

/-- Result of the sender-trust lookup/create/update/promotion step of
`process_gmail_zelle_parsed_tx` (src/main.py:1543-1616). -/
structure TrustStepResult where
  is_new_sender : Bool
  sender_trust_id : ℕ
  state : String
  seen_count : ℤ
  auto_promoted : Bool
  trust : List SenderTrust
  next_trust_id : ℕ
  deriving Repr, DecidableEq

/-- `UPDATE gmail_sender_trust ... WHERE id = tid`: apply `g` to the rows
whose id matches. -/
def updateById (tid : ℕ) (g : SenderTrust → SenderTrust)
    (l : List SenderTrust) : List SenderTrust :=
  l.map (fun t => if t.id = tid then g t else t)

/-- The match-bookkeeping `UPDATE` of `process_gmail_zelle_parsed_tx`
(src/main.py:1579-1597). -/
def trustBookkeepingUpdate (now : ℤ) (identity_display sender_display_name
    gmail_message_id : String) (amount_cents seen_count : ℤ)
    (t : SenderTrust) : SenderTrust :=
  { t with last_seen_at := now, seen_count := seen_count,
           last_matched_amount_cents := amount_cents,
           last_matched_message_id := gmail_message_id,
           display_name_hint :=
             match strOrNone (firstNonempty [identity_display,
                 sender_display_name]) with
             | some v => some v
             | none => t.display_name_hint }

/-- The auto-promotion `UPDATE` of `process_gmail_zelle_parsed_tx`
(src/main.py:1604-1614): state `approved`, attributed to the system actor 0,
`auto_promote_at` cleared. -/
def trustPromoteUpdate (now : ℤ) (t : SenderTrust) : SenderTrust :=
  { t with state := "approved", approved_at := some now,
           approved_by := some 0, auto_promote_at := none }

/-- The sender-trust step of `process_gmail_zelle_parsed_tx`
(src/main.py:1543-1616): look up / create the row for `identity_key`,
refresh the match bookkeeping, then auto-promote a ripe quarantined row. -/
def trustStep (now : ℤ) (identity_key identity_display sender_display_name
    gmail_message_id : String) (amount_cents : ℤ)
    (trustList : List SenderTrust) (next_trust_id : ℕ) : TrustStepResult :=
  match trustList.find? (fun t => t.sender_email = identity_key) with
  | none =>
    let newRow : SenderTrust :=
      { id := next_trust_id, sender_email := identity_key,
        state := "quarantine", first_seen_at := now, last_seen_at := now,
        seen_count := 1, auto_promote_at := some (now + AUTO_PROMOTE_SECONDS),
        approved_at := none, approved_by := none, blocked_at := none,
        blocked_by := none, last_matched_amount_cents := amount_cents,
        last_matched_message_id := gmail_message_id,
        display_name_hint :=
          strOrNone (firstNonempty [identity_display, sender_display_name]) }
    { is_new_sender := true, sender_trust_id := next_trust_id,
      state := "quarantine", seen_count := 1, auto_promoted := false,
      trust := newRow :: trustList, next_trust_id := next_trust_id + 1 }
  | some tr =>
    let state0 := if tr.state = "" then "quarantine" else tr.state
    let seen_count := tr.seen_count + 1
    let l1 := updateById tr.id (trustBookkeepingUpdate now identity_display
      sender_display_name gmail_message_id amount_cents seen_count) trustList
    let promote : Bool :=
      state0 = "quarantine" &&
        (match tr.auto_promote_at with
         | some ap => decide (ap ≤ now)
         | none => false)
    if promote then
      { is_new_sender := false, sender_trust_id := tr.id,
        state := "approved", seen_count := seen_count, auto_promoted := true,
        trust := updateById tr.id (trustPromoteUpdate now) l1,
        next_trust_id := next_trust_id }
    else
      { is_new_sender := false, sender_trust_id := tr.id, state := state0,
        seen_count := seen_count, auto_promoted := false, trust := l1,
        next_trust_id := next_trust_id }

/-- The final policy branch of `process_gmail_zelle_parsed_tx`
(src/main.py:1618-1700): blocked short-circuit, shadow outcome, or live
ledger add; always persists a processed-message row. -/
def applyOutcome (now : ℤ) (parsed : ParsedEvent) (actor_id : Option ℤ)
    (mode : String) (meta : Option Notes)
    (identity_key identity_display : String) (ts : TrustStepResult)
    (s1 : DBState) : ProcResult × DBState :=
  if ts.state = "blocked" then
    let blocked_meta : Notes :=
      { meta.getD {} with
        identity_key := some identity_key
        identity_display := some identity_display }
    ({ status := "blocked_sender",
       sender_trust_id := some ts.sender_trust_id,
       sender_email := some identity_key,
       payer_display := some identity_display },
      insertGmailProcessed now parsed "blocked_sender" none
        (some blocked_meta) s1)
  else if mode ≠ "live" || actor_id.isNone then
    let shadow_meta : Notes :=
      { meta.getD {} with
        identity_key := some identity_key
        identity_display := some identity_display
        is_new_sender := some ts.is_new_sender
        auto_promoted := some ts.auto_promoted }
    ({ status := "shadow_approved_match",
       sender_trust_id := some ts.sender_trust_id,
       sender_email := some identity_key,
       payer_display := some identity_display,
       auto_promoted := some ts.auto_promoted,
       is_new_sender := some ts.is_new_sender,
       state := some ts.state },
      insertGmailProcessed now parsed "shadow_approved_match" none
        (some shadow_meta) s1)
  else
    let total_cents := s1.total_cents + parsed.amount_cents
    let movement_id := s1.next_movement_id
    let mv : Movement :=
      { id := movement_id, session_id := s1.session_id, kind := "add",
        amount_cents := parsed.amount_cents, total_after_cents := total_cents,
        actor_id := actor_id.getD 0, created_at := now }
    let added_meta : Notes :=
      { meta.getD {} with
        identity_key := some identity_key
        identity_display := some identity_display
        is_new_sender := some ts.is_new_sender
        auto_promoted := some ts.auto_promoted }
    ({ status := "added", movement_id := some movement_id,
       new_total_cents := some total_cents,
       sender_trust_id := some ts.sender_trust_id,
       sender_email := some identity_key,
       payer_display := some identity_display,
       auto_promoted := some ts.auto_promoted,
       is_new_sender := some ts.is_new_sender,
       state := some ts.state, actor_id := actor_id },
      insertGmailProcessed now parsed "added" (some movement_id)
        (some added_meta)
        { s1 with
          total_cents := total_cents
          movements := mv :: s1.movements
          next_movement_id := movement_id + 1 })

/-- `process_gmail_zelle_parsed_tx` (src/main.py:1477): dedup +
trust-policy + optional auto-add for one parsed Gmail Zelle candidate. -/
def process_gmail_zelle_parsed_tx (now : ℤ) (parsed : ParsedEvent)
    (actor_id : Option ℤ) (mode : String) (s : DBState) :
    ProcResult × DBState :=
  let sender_email := normalizeKey parsed.sender_email
  let identity_key := identityKeyOf parsed
  let identity_display := identityDisplayOf parsed
  let source_kind := parsed.source_kind
  let confirmation_number := pyStrip parsed.confirmation_number
  let amount_cents := parsed.amount_cents
  let gmail_message_id := parsed.gmail_message_id
  let sender_display_name := parsed.sender_display_name
  if gmail_message_id = "" then
    ({ status := "invalid_parsed", reason := some "missing_message_id" }, s)
  else if sender_email = "" then
    ({ status := "invalid_parsed", reason := some "missing_sender_email" }, s)
  else if identity_key = "" then
    ({ status := "invalid_parsed", reason := some "missing_identity_key" }, s)
  else if amount_cents ≤ 0 then
    ({ status := "invalid_parsed", reason := some "invalid_amount" }, s)
  else
    let meta : Option Notes :=
      if source_kind = "bask_zelle" then some (gmailBaskMetadata parsed)
      else none
    match s.processed.find? (fun g => g.gmail_message_id = gmail_message_id) with
    | some existing =>
      ({ status := "duplicate", previous_status := some existing.status,
         movement_id := existing.movement_id }, s)
    | none =>
      let baskDup :=
        if source_kind = "bask_zelle" && confirmation_number ≠ "" then
          findBaskDuplicate confirmation_number amount_cents s.processed
        else none
      match baskDup with
      | some dup_conf =>
        let dup_meta : Notes :=
          { meta.getD {} with
            duplicate_reason := some "bask_confirmation_number"
            duplicate_of_gmail_message_id := some dup_conf.gmail_message_id }
        ({ status := "duplicate",
           duplicate_reason := some "bask_confirmation_number",
           duplicate_of_gmail_message_id := some dup_conf.gmail_message_id },
          insertGmailProcessed now parsed "ignored_duplicate" none
            (some dup_meta) s)
      | none =>
        let ts := trustStep now identity_key identity_display
          sender_display_name gmail_message_id amount_cents
          s.sender_trust s.next_trust_id
        let s1 : DBState :=
          { s with sender_trust := ts.trust, next_trust_id := ts.next_trust_id }
        applyOutcome now parsed actor_id mode meta identity_key
          identity_display ts s1

/-- Result dict of `confirm_movement_tx`. -/
inductive ConfirmResult where
  | missing
  | already_confirmed (actor_id amount_cents : ℤ)
  | confirmed (actor_id amount_cents : ℤ)
  deriving Repr, DecidableEq

/-- `confirm_movement_tx` (src/main.py:582): atomically check and confirm a
movement confirmation record. -/
def confirm_movement_tx (now : ℤ) (movement_id : ℕ) (confirmer_id : ℤ)
    (s : DBState) : ConfirmResult × DBState :=
  match s.confirmations.find? (fun c => c.movement_id = movement_id) with
  | none => (ConfirmResult.missing, s)
  | some row =>
    if row.is_confirmed then
      (ConfirmResult.already_confirmed row.actor_id row.amount_cents, s)
    else
      (ConfirmResult.confirmed row.actor_id row.amount_cents,
        { s with confirmations := s.confirmations.map (fun c =>
            if c.movement_id = movement_id then
              { c with is_confirmed := true, confirmed_at := some now,
                       confirmed_by := some confirmer_id }
            else c) })

/-- The custom-amount manual-add path of `on_message` (src/main.py:4535):
parse the text with `money_to_cents`; on failure nothing is mutated, on
success call `add_amount_with_confirmation`. `text_amount` is the exact
decimal value `Decimal` parses from the message text (`none` when parsing
fails). -/
def on_message_add (now : ℤ) (user_id : ℤ) (text_amount : Option ℚ)
    (s : DBState) : DBState :=
  match money_to_cents text_amount with
  | Except.error _ => s
  | Except.ok add_cents => (add_amount_with_confirmation now user_id add_cents s).2

/-- One serialized state-mutating ledger operation of the single-writer
process (every mutator of `global_state`/`movements` in src/main.py). -/
inductive Op where
  | manualAdd (now user_id : ℤ) (text_amount : Option ℚ)
  | ingest (now : ℤ) (parsed : ParsedEvent) (actor_id : Option ℤ) (mode : String)
  | release (feePct networkFee : ℚ) (now actor_id : ℤ)
  | undo
  | adminReverse (now : ℤ) (gmail_message_id : String) (acting_user_id : ℤ)
      (block_payer : Bool)
  | confirm (now : ℤ) (movement_id : ℕ) (confirmer_id : ℤ)

/-- State transition of one operation (discarding the result value). -/
def applyOp (s : DBState) : Op → DBState
  | Op.manualAdd now uid q => on_message_add now uid q s
  | Op.ingest now parsed actor mode =>
    (process_gmail_zelle_parsed_tx now parsed actor mode s).2
  | Op.release f nf now a => (release_current_total f nf now a s).2
  | Op.undo => (undo_last_movement_tx s).2
  | Op.adminReverse now mid u b =>
    (admin_reverse_gmail_event_tx now mid u b s).2
  | Op.confirm now mid c => (confirm_movement_tx now mid c s).2

/-- Run a whole sequence of ledger operations from a state. -/
def applyOps (s : DBState) (ops : List Op) : DBState :=
  ops.foldl applyOp s

/-- The persistent-store invariant behind claim C1: the persisted total is
nonnegative and every logged movement has a nonnegative amount. -/
def Inv (s : DBState) : Prop :=
  0 ≤ s.total_cents ∧ ∀ m ∈ s.movements, 0 ≤ m.amount_cents

theorem inv_initState : Inv initState := by
  constructor
  · simp [initState]
  · intro m hm
    simp [initState] at hm

theorem money_to_cents_nonneg (q : Option ℚ) (c : ℤ)
    (h : money_to_cents q = Except.ok c) : 0 ≤ c := by
  unfold money_to_cents at h
  match q with
  | none => simp at h
  | some amt =>
    simp only at h
    split at h
    · simp at h
    · rename_i hneg
      simp only [Except.ok.injEq] at h
      omega

theorem inv_add_amount (now actor c : ℤ) (s : DBState) (hs : Inv s)
    (hc : 0 ≤ c) : Inv (add_amount_with_confirmation now actor c s).2 := by
  obtain ⟨h1, h2⟩ := hs
  constructor
  · simp only [add_amount_with_confirmation]
    omega
  · intro m hm
    simp only [add_amount_with_confirmation, List.mem_cons] at hm
    rcases hm with hm | hm
    · subst hm; exact hc
    · exact h2 m hm

theorem inv_on_message_add (now uid : ℤ) (q : Option ℚ) (s : DBState)
    (hs : Inv s) : Inv (on_message_add now uid q s) := by
  unfold on_message_add
  split
  · exact hs
  · rename_i c hc
    exact inv_add_amount now uid c s hs (money_to_cents_nonneg q c hc)

theorem inv_insertGmailProcessed (now : ℤ) (parsed : ParsedEvent)
    (status : String) (mid : Option ℕ) (notes : Option Notes) (s : DBState)
    (hs : Inv s) : Inv (insertGmailProcessed now parsed status mid notes s) := by
  obtain ⟨h1, h2⟩ := hs
  exact ⟨h1, h2⟩

theorem inv_applyOutcome (now : ℤ) (parsed : ParsedEvent) (actor : Option ℤ)
    (mode : String) (meta : Option Notes) (ik idisp : String)
    (ts : TrustStepResult) (s1 : DBState) (hs : Inv s1)
    (hamt : 0 ≤ parsed.amount_cents) :
    Inv (applyOutcome now parsed actor mode meta ik idisp ts s1).2 := by
  obtain ⟨h1, h2⟩ := hs
  unfold applyOutcome
  split
  · exact inv_insertGmailProcessed _ _ _ _ _ _ ⟨h1, h2⟩
  split
  · exact inv_insertGmailProcessed _ _ _ _ _ _ ⟨h1, h2⟩
  · apply inv_insertGmailProcessed
    constructor
    · simp only
      omega
    · intro m hm
      simp only [List.mem_cons] at hm
      rcases hm with hm | hm
      · subst hm
        exact hamt
      · exact h2 m hm

theorem inv_process (now : ℤ) (parsed : ParsedEvent) (actor : Option ℤ)
    (mode : String) (s : DBState) (hs : Inv s) :
    Inv (process_gmail_zelle_parsed_tx now parsed actor mode s).2 := by
  obtain ⟨h1, h2⟩ := hs
  unfold process_gmail_zelle_parsed_tx
  dsimp only
  split
  · exact ⟨h1, h2⟩
  split
  · exact ⟨h1, h2⟩
  split
  · exact ⟨h1, h2⟩
  split
  · exact ⟨h1, h2⟩
  rename_i hMsg hSender hKey hAmt
  split
  · exact ⟨h1, h2⟩
  split
  · exact inv_insertGmailProcessed _ _ _ _ _ _ ⟨h1, h2⟩
  · exact inv_applyOutcome _ _ _ _ _ _ _ _ _ ⟨h1, h2⟩ (by omega)

theorem inv_release (f nf : ℚ) (now a : ℤ) (s : DBState) (hs : Inv s) :
    Inv (release_current_total f nf now a s).2 := by
  obtain ⟨h1, h2⟩ := hs
  unfold release_current_total
  split
  · exact ⟨h1, h2⟩
  · constructor
    · dsimp only
      omega
    · intro m hm
      dsimp only at hm
      simp only [List.mem_cons] at hm
      rcases hm with hm | hm
      · subst hm
        exact h1
      · exact h2 m hm

theorem undo_eq_nil (s : DBState) (hm : s.movements = []) :
    undo_last_movement_tx s = (none, s) := by
  unfold undo_last_movement_tx
  rw [hm]
  rfl

theorem undo_eq_add (s : DBState) (mv : Movement) (rest : List Movement)
    (hm : s.movements = mv :: rest) (hk : mv.kind = "add") :
    undo_last_movement_tx s =
      (some (UndoInfo.add mv.amount_cents
          (if s.total_cents - mv.amount_cents < 0 then 0
           else s.total_cents - mv.amount_cents)
          (pyTruthyInt ((s.confirmations.find?
              (fun c => c.movement_id = mv.id)).bind
            (fun c => c.confirm_chat_id)))
          (pyTruthyInt ((s.confirmations.find?
              (fun c => c.movement_id = mv.id)).bind
            (fun c => c.confirm_message_id)))),
        { s with
          session_id :=
            if s.session_id ≠ mv.session_id then mv.session_id
            else s.session_id
          confirmations :=
            s.confirmations.filter (fun c => c.movement_id ≠ mv.id)
          total_cents :=
            if s.total_cents - mv.amount_cents < 0 then 0
            else s.total_cents - mv.amount_cents
          movements := (mv :: rest).filter (fun m => m.id ≠ mv.id) }) := by
  unfold undo_last_movement_tx
  rw [hm]
  simp only [List.head?_cons]
  rw [hk]
  rw [if_pos rfl]
  split <;> split <;> (try rw [hm]) <;> (try rfl)

theorem undo_eq_release (s : DBState) (mv : Movement) (rest : List Movement)
    (hm : s.movements = mv :: rest) (hk : mv.kind = "release") :
    undo_last_movement_tx s =
      (some (UndoInfo.release mv.amount_cents mv.session_id),
        { s with
          session_id := mv.session_id
          total_cents := mv.amount_cents
          releases :=
            match s.releases.find? (fun r => r.session_id = mv.session_id) with
            | some r => s.releases.filter (fun x => x.id ≠ r.id)
            | none => s.releases
          movements := (mv :: rest).filter (fun m => m.id ≠ mv.id) }) := by
  unfold undo_last_movement_tx
  rw [hm]
  simp only [List.head?_cons]
  rw [hk]
  rw [if_neg (by decide : ¬(("release" : String) = "add")), if_pos rfl]
  split <;> rfl

theorem undo_eq_reversal (s : DBState) (mv : Movement) (rest : List Movement)
    (hm : s.movements = mv :: rest) (hk : mv.kind = "reversal") :
    undo_last_movement_tx s =
      (some (UndoInfo.reversal mv.amount_cents
          (s.total_cents + mv.amount_cents)
          ((s.reversals.find? (fun r => r.reversal_movement_id = mv.id)).map
            (fun r => r.gmail_message_id))),
        { s with
          total_cents := s.total_cents + mv.amount_cents
          reversals :=
            match s.reversals.find?
                (fun r => r.reversal_movement_id = mv.id) with
            | some r => s.reversals.filter (fun x => x.id ≠ r.id)
            | none => s.reversals
          movements := (mv :: rest).filter (fun m => m.id ≠ mv.id) }) := by
  unfold undo_last_movement_tx
  rw [hm]
  simp only [List.head?_cons]
  rw [hk]
  rw [if_neg (by decide : ¬(("reversal" : String) = "add")),
    if_neg (by decide : ¬(("reversal" : String) = "release")), if_pos rfl]
  split <;> rfl

theorem undo_eq_unknown (s : DBState) (mv : Movement) (rest : List Movement)
    (hm : s.movements = mv :: rest) (hk1 : mv.kind ≠ "add")
    (hk2 : mv.kind ≠ "release") (hk3 : mv.kind ≠ "reversal") :
    undo_last_movement_tx s = (some UndoInfo.unknown, s) := by
  unfold undo_last_movement_tx
  rw [hm]
  simp only [List.head?_cons]
  rw [if_neg hk1, if_neg hk2, if_neg hk3]

theorem inv_undo (s : DBState) (hs : Inv s) :
    Inv (undo_last_movement_tx s).2 := by
  obtain ⟨h1, h2⟩ := hs
  cases hm : s.movements with
  | nil => rw [undo_eq_nil s hm]; exact ⟨h1, h2⟩
  | cons mv rest =>
    have hmv : mv ∈ s.movements := hm ▸ List.mem_cons_self mv rest
    have hsub : ∀ m, m ∈ (mv :: rest).filter (fun m => m.id ≠ mv.id) →
        0 ≤ m.amount_cents := by
      intro m hmem
      exact h2 m (hm ▸ (List.mem_filter.mp hmem).1)
    by_cases hk1 : mv.kind = "add"
    · rw [undo_eq_add s mv rest hm hk1]
      refine ⟨?_, hsub⟩
      dsimp only
      split <;> omega
    · by_cases hk2 : mv.kind = "release"
      · rw [undo_eq_release s mv rest hm hk2]
        exact ⟨h2 mv hmv, hsub⟩
      · by_cases hk3 : mv.kind = "reversal"
        · rw [undo_eq_reversal s mv rest hm hk3]
          refine ⟨?_, hsub⟩
          have := h2 mv hmv
          dsimp only
          omega
        · rw [undo_eq_unknown s mv rest hm hk1 hk2 hk3]
          exact ⟨h1, h2⟩

theorem inv_admin_reverse (now : ℤ) (mid : String) (u : ℤ) (b : Bool)
    (s : DBState) (hs : Inv s) :
    Inv (admin_reverse_gmail_event_tx now mid u b s).2 := by
  obtain ⟨h1, h2⟩ := hs
  unfold admin_reverse_gmail_event_tx
  dsimp only
  split
  · exact ⟨h1, h2⟩
  split
  · exact ⟨h1, h2⟩
  split
  · exact ⟨h1, h2⟩
  split
  · exact ⟨h1, h2⟩
  split
  · exact ⟨h1, h2⟩
  · rename_i hamt
    constructor
    · dsimp only
      split <;> omega
    · intro m hm
      dsimp only at hm
      simp only [List.mem_cons] at hm
      rcases hm with hm | hm
      · subst hm
        dsimp only
        omega
      · exact h2 m hm

theorem inv_confirm (now : ℤ) (mid : ℕ) (c : ℤ) (s : DBState) (hs : Inv s) :
    Inv (confirm_movement_tx now mid c s).2 := by
  obtain ⟨h1, h2⟩ := hs
  unfold confirm_movement_tx
  split
  · exact ⟨h1, h2⟩
  split
  · exact ⟨h1, h2⟩
  · exact ⟨h1, h2⟩

theorem inv_applyOp (s : DBState) (op : Op) (hs : Inv s) :
    Inv (applyOp s op) := by
  cases op with
  | manualAdd now uid q => exact inv_on_message_add now uid q s hs
  | ingest now parsed actor mode => exact inv_process now parsed actor mode s hs
  | release f nf now a => exact inv_release f nf now a s hs
  | undo => exact inv_undo s hs
  | adminReverse now mid u b => exact inv_admin_reverse now mid u b s hs
  | confirm now mid c => exact inv_confirm now mid c s hs

theorem inv_applyOps (s : DBState) (ops : List Op) (hs : Inv s) :
    Inv (applyOps s ops) := by
  induction ops generalizing s with
  | nil => exact hs
  | cons op rest ih => exact ih (applyOp s op) (inv_applyOp s op hs)

/-- C1: for every sequence of ledger operations (manual add, auto-ingested
add, release, admin reversal, undo of any kind, confirmation), the
persisted global `total_cents` is never negative: every operation that
decreases the total clamps the result at 0 before writing it, so from the
initial state every reachable persisted total satisfies `0 ≤ total_cents`. -/
theorem C1_total_cents_never_negative (ops : List Op) :
    0 ≤ (applyOps initState ops).total_cents :=
  (inv_applyOps initState ops inv_initState).1

theorem ratFloor_eq_floor (q : ℚ) : ratFloor q = Int.floor q := by
  rw [Rat.floor_def]
  rfl

theorem ratFloor_intCast_add_half (m : ℤ) :
    ratFloor ((m : ℚ) + 1/2) = m := by
  rw [ratFloor_eq_floor, add_comm, Int.floor_add_int]
  norm_num

theorem roundHalfUp_intCast (n : ℤ) : roundHalfUp ((n : ℚ)) = n := by
  unfold roundHalfUp
  split
  · rw [show -(n : ℚ) + 1/2 = ((-n : ℤ) : ℚ) + 1/2 by push_cast; ring,
      ratFloor_intCast_add_half]
    exact neg_neg n
  · exact ratFloor_intCast_add_half n

/-- `compute_fee_net` in closed integer form: the fee is the total times the
fee rate rounded half-up at the cent boundary, the network fee is its own
cent value, and the net is the difference clamped at 0. -/
theorem compute_fee_net_closed_form (f nf : ℚ) (t : ℤ) :
    compute_fee_net f nf t =
      (roundHalfUp ((t : ℚ) * f), roundHalfUp (nf * 100),
        max 0 (t - roundHalfUp ((t : ℚ) * f) - roundHalfUp (nf * 100))) := by
  unfold compute_fee_net
  dsimp only
  rw [show (t : ℚ) / 100 * f * 100 = (t : ℚ) * f by ring]
  rw [show ((roundHalfUp ((t : ℚ) * f) : ℚ) / 100 * 100)
      = ((roundHalfUp ((t : ℚ) * f) : ℤ) : ℚ) by ring,
    roundHalfUp_intCast]
  rw [show ((roundHalfUp (nf * 100) : ℚ) / 100 * 100)
      = ((roundHalfUp (nf * 100) : ℤ) : ℚ) by ring,
    roundHalfUp_intCast]
  rw [show (((t : ℚ) / 100 - (roundHalfUp ((t : ℚ) * f) : ℚ) / 100
        - (roundHalfUp (nf * 100) : ℚ) / 100) * 100)
      = ((t - roundHalfUp ((t : ℚ) * f) - roundHalfUp (nf * 100) : ℤ) : ℚ)
      by push_cast; ring,
    roundHalfUp_intCast]
  rw [show (((t - roundHalfUp ((t : ℚ) * f) - roundHalfUp (nf * 100) : ℤ) : ℚ)
        / 100 * 100)
      = ((t - roundHalfUp ((t : ℚ) * f) - roundHalfUp (nf * 100) : ℤ) : ℚ)
      by push_cast; ring,
    roundHalfUp_intCast]
  simp only [Prod.mk.injEq, true_and]
  omega

/-- A state with $1000.00 accumulated, used to instantiate the release
claims on the spec's worked example. -/
def exampleReleaseState : DBState :=
  { initState with total_cents := 100000 }

/-- C6: for every positive total, `Release` computes the fee as
`total × feeRate` rounded half-up at the 2-decimal (cent) boundary before
conversion to integer minor units, and `net = max 0 (total - fee -
networkFee)`; it records the pre-reset total, zeroes the total and advances
the session by exactly 1; on total 100000 cents with the default 2% rate
and $0.30 network fee this gives fee 2000 cents and net 97970 cents. -/
theorem C6_release_fee_net_rounding (f nf : ℚ) (now a : ℤ) (s : DBState)
    (hpos : 0 < s.total_cents) :
    ((release_current_total f nf now a s).1 =
      some { session_id := s.session_id, total_cents := s.total_cents,
             fee_cents := roundHalfUp ((s.total_cents : ℚ) * f),
             network_fee_cents := roundHalfUp (nf * 100),
             net_cents := max 0 (s.total_cents
               - roundHalfUp ((s.total_cents : ℚ) * f)
               - roundHalfUp (nf * 100)) } ∧
     (release_current_total f nf now a s).2.total_cents = 0 ∧
     (release_current_total f nf now a s).2.session_id = s.session_id + 1) ∧
    compute_fee_net FEE_PCT_DEFAULT NETWORK_FEE_DEFAULT 100000
      = (2000, 30, 97970) := by
  constructor
  · unfold release_current_total
    rw [if_neg (by omega)]
    dsimp only
    rw [compute_fee_net_closed_form]
    exact ⟨rfl, rfl, rfl⟩
  · rw [compute_fee_net_closed_form]
    norm_num [FEE_PCT_DEFAULT, NETWORK_FEE_DEFAULT, roundHalfUp, ratFloor]

/-- Witness for C6 at the spec's worked example: total $1000.00, default
fee rate and network fee. -/
theorem C6_release_fee_net_rounding_witness :
    0 < exampleReleaseState.total_cents ∧
    (release_current_total FEE_PCT_DEFAULT NETWORK_FEE_DEFAULT 0 7
        exampleReleaseState).1 =
      some { session_id := 1, total_cents := 100000, fee_cents := 2000,
             network_fee_cents := 30, net_cents := 97970 } ∧
    (release_current_total FEE_PCT_DEFAULT NETWORK_FEE_DEFAULT 0 7
        exampleReleaseState).2.total_cents = 0 ∧
    (release_current_total FEE_PCT_DEFAULT NETWORK_FEE_DEFAULT 0 7
        exampleReleaseState).2.session_id = 2 := by
  have h := C6_release_fee_net_rounding FEE_PCT_DEFAULT NETWORK_FEE_DEFAULT
    0 7 exampleReleaseState (by norm_num [exampleReleaseState, initState])
  obtain ⟨⟨h1, h2, h3⟩, _⟩ := h
  refine ⟨by norm_num [exampleReleaseState, initState], ?_, h2, ?_⟩
  · rw [h1]
    norm_num [exampleReleaseState, initState, FEE_PCT_DEFAULT,
      NETWORK_FEE_DEFAULT, roundHalfUp, ratFloor]
  · rw [h3]
    norm_num [exampleReleaseState, initState]

/-- An already-confirmed confirmation row for movement 5. -/
def exampleConfirmationRow : Confirmation :=
  { movement_id := 5, actor_id := 7, amount_cents := 1200,
    created_at := 0, expires_at := 86400, is_confirmed := true,
    confirmed_at := some 100, confirmed_by := some 9,
    confirm_chat_id := none, confirm_message_id := none }

/-- A state holding a single already-confirmed confirmation row, used to
instantiate the approval-idempotence claim. -/
def exampleConfirmedState : DBState :=
  { initState with confirmations := [exampleConfirmationRow] }

/-- C9: confirmation approval is idempotent: if the confirmation row of a
movement is already confirmed, a second approval call returns
`already_confirmed` (echoing the stored actor and amount) and leaves the
whole store — in particular the row's `is_confirmed`, `confirmed_at` and
`confirmed_by` — completely unchanged, so a confirmation can transition
from unconfirmed to confirmed at most once. -/
theorem C9_confirm_idempotent (now : ℤ) (mid : ℕ) (cid : ℤ) (s : DBState)
    (row : Confirmation)
    (hfind : s.confirmations.find? (fun c => c.movement_id = mid) = some row)
    (hconf : row.is_confirmed = true) :
    confirm_movement_tx now mid cid s =
      (ConfirmResult.already_confirmed row.actor_id row.amount_cents, s) := by
  unfold confirm_movement_tx
  rw [hfind]
  dsimp only
  rw [hconf]
  rfl

/-- Witness for C9: approving the already-confirmed movement 5 a second
time returns `already_confirmed` and changes nothing. -/
theorem C9_confirm_idempotent_witness :
    confirm_movement_tx 200 5 7 exampleConfirmedState =
      (ConfirmResult.already_confirmed 7 1200, exampleConfirmedState) :=
  C9_confirm_idempotent 200 5 7 exampleConfirmedState exampleConfirmationRow
    (by rfl) (by rfl)

/-- C4 counterexample: the input `0` parses to 0 cents, which is not a
strictly positive amount, yet `money_to_cents` accepts it and the manual
add path mutates the store: a zero-amount movement and a confirmation row
are created, contradicting the claim that every non-positive amount is
rejected before any mutation. -/
theorem C4_counterexample_zero_accepted :
    money_to_cents (some 0) = Except.ok 0 ∧
    (on_message_add 0 7 (some 0) initState).movements.length = 1 ∧
    (on_message_add 0 7 (some 0) initState).confirmations.length = 1 := by
  have hz : roundHalfUp (0 : ℚ) = 0 := by
    norm_num [roundHalfUp, ratFloor]
  have hm : money_to_cents (some 0) = Except.ok 0 := by
    simp [money_to_cents, hz]
  refine ⟨hm, ?_, ?_⟩ <;>
    simp [on_message_add, hm, add_amount_with_confirmation, initState]

/-- C4 (amended): the manual-add path rejects non-numeric input and any
input whose parsed value is negative before any mutation (store completely
unchanged), and every accepted amount is nonnegative — but zero is
accepted, so only negative (not all non-positive) amounts are rejected. -/
theorem C4_add_rejects_negative_or_nonnumeric (now uid : ℤ) (q : Option ℚ)
    (s : DBState) :
    (q = none →
      money_to_cents q = Except.error "InvalidOperation" ∧
      on_message_add now uid q s = s) ∧
    (∀ amt : ℚ, q = some amt → roundHalfUp (amt * 100) < 0 →
      money_to_cents q = Except.error "Negative amount not allowed" ∧
      on_message_add now uid q s = s) ∧
    (∀ c : ℤ, money_to_cents q = Except.ok c → 0 ≤ c) := by
  refine ⟨?_, ?_, fun c hc => money_to_cents_nonneg q c hc⟩
  · rintro rfl
    exact ⟨rfl, rfl⟩
  · rintro amt rfl hneg
    have hm : money_to_cents (some amt)
        = Except.error "Negative amount not allowed" := by
      unfold money_to_cents
      dsimp only
      rw [if_pos hneg]
    exact ⟨hm, by unfold on_message_add; rw [hm]⟩

/-- Witness for C4 (amended): the input `-1` parses to -100 cents and is
rejected with no mutation of the store. -/
theorem C4_add_rejects_negative_witness :
    roundHalfUp ((-1 : ℚ) * 100) < 0 ∧
    money_to_cents (some (-1)) = Except.error "Negative amount not allowed" ∧
    on_message_add 0 7 (some (-1)) initState = initState := by
  have hneg : roundHalfUp ((-1 : ℚ) * 100) < 0 := by
    norm_num [roundHalfUp, ratFloor]
  have h := (C4_add_rejects_negative_or_nonnumeric 0 7 (some (-1))
    initState).2.1 (-1) rfl hneg
  exact ⟨hneg, h.1, h.2⟩

theorem identityKeyOf_ne_empty (parsed : ParsedEvent)
    (h : normalizeKey parsed.sender_email ≠ "") :
    identityKeyOf parsed ≠ "" := by
  unfold identityKeyOf
  dsimp only
  split
  · exact h
  · rename_i hne
    exact hne

/-- Re-processing an event id already present in the processed-messages
table returns `duplicate` (echoing the stored status and movement id) and
leaves the whole store unchanged. -/
theorem process_duplicate_short_circuit (now : ℤ) (parsed : ParsedEvent)
    (actor : Option ℤ) (mode : String) (s : DBState) (p0 : ProcessedMsg)
    (hmsg : parsed.gmail_message_id ≠ "")
    (hsender : normalizeKey parsed.sender_email ≠ "")
    (hamt : 0 < parsed.amount_cents)
    (hfind : s.processed.find?
        (fun g => g.gmail_message_id = parsed.gmail_message_id) = some p0) :
    process_gmail_zelle_parsed_tx now parsed actor mode s =
      ({ status := "duplicate", previous_status := some p0.status,
         movement_id := p0.movement_id }, s) := by
  unfold process_gmail_zelle_parsed_tx
  dsimp only
  rw [if_neg hmsg, if_neg hsender,
    if_neg (identityKeyOf_ne_empty parsed hsender), if_neg (by omega), hfind]

/-- When the validity guards pass and neither dedup check fires,
`process_gmail_zelle_parsed_tx` is the trust step followed by the policy
outcome. -/
theorem process_eq_applyOutcome (now : ℤ) (parsed : ParsedEvent)
    (actor : Option ℤ) (mode : String) (s : DBState)
    (hmsg : parsed.gmail_message_id ≠ "")
    (hsender : normalizeKey parsed.sender_email ≠ "")
    (hamt : 0 < parsed.amount_cents)
    (hdup : s.processed.find?
        (fun g => g.gmail_message_id = parsed.gmail_message_id) = none)
    (hbask : (if parsed.source_kind = "bask_zelle" &&
          pyStrip parsed.confirmation_number ≠ "" then
        findBaskDuplicate (pyStrip parsed.confirmation_number)
          parsed.amount_cents s.processed
      else none) = none) :
    process_gmail_zelle_parsed_tx now parsed actor mode s =
      applyOutcome now parsed actor mode
        (if parsed.source_kind = "bask_zelle" then
          some (gmailBaskMetadata parsed) else none)
        (identityKeyOf parsed) (identityDisplayOf parsed)
        (trustStep now (identityKeyOf parsed) (identityDisplayOf parsed)
          parsed.sender_display_name parsed.gmail_message_id
          parsed.amount_cents s.sender_trust s.next_trust_id)
        { s with
          sender_trust :=
            (trustStep now (identityKeyOf parsed) (identityDisplayOf parsed)
              parsed.sender_display_name parsed.gmail_message_id
              parsed.amount_cents s.sender_trust s.next_trust_id).trust
          next_trust_id :=
            (trustStep now (identityKeyOf parsed) (identityDisplayOf parsed)
              parsed.sender_display_name parsed.gmail_message_id
              parsed.amount_cents s.sender_trust s.next_trust_id).next_trust_id } := by
  unfold process_gmail_zelle_parsed_tx
  dsimp only
  rw [if_neg hmsg, if_neg hsender,
    if_neg (identityKeyOf_ne_empty parsed hsender), if_neg (by omega),
    hdup, hbask]

/-- The policy outcome never touches the sender-trust table. -/
theorem applyOutcome_sender_trust (now : ℤ) (parsed : ParsedEvent)
    (actor : Option ℤ) (mode : String) (meta : Option Notes)
    (ik idisp : String) (ts : TrustStepResult) (s1 : DBState) :
    (applyOutcome now parsed actor mode meta ik idisp ts s1).2.sender_trust
      = s1.sender_trust := by
  unfold applyOutcome
  split
  · rfl
  split <;> rfl

/-- The already-reversed short circuit of `admin_reverse_gmail_event_tx`:
when a reversal record exists for the event id (and its `added` processed
row is present), the second reversal attempt changes nothing. -/
theorem admin_reverse_already_reversed (now : ℤ) (mid : String) (u : ℤ)
    (b : Bool) (s : DBState) (row : ProcessedMsg)
    (hmid : pyStrip mid ≠ "")
    (hfind : s.processed.find? (fun g =>
        g.gmail_message_id = pyStrip mid && g.status = "added" &&
        g.movement_id.isSome) = some row)
    (hrev : (s.reversals.find?
        (fun r => r.gmail_message_id = pyStrip mid)).isSome = true) :
    admin_reverse_gmail_event_tx now mid u b s =
      (ReverseResult.already_reversed, s) := by
  unfold admin_reverse_gmail_event_tx
  dsimp only
  rw [if_neg hmid, hfind]
  dsimp only
  rw [if_pos hrev]

/-- C3: processing the same external event id a second time is a no-op
duplicate — if the id is already present in the processed-messages table,
ingestion returns status `duplicate` and the store is unchanged; and a
second admin reversal for an event id that already has a reversal record
returns `already_reversed` with no state change. -/
theorem C3_duplicate_event_noop (now : ℤ) (parsed : ParsedEvent)
    (actor : Option ℤ) (mode : String) (s : DBState) (p0 : ProcessedMsg)
    (mid : String) (u : ℤ) (b : Bool) (row : ProcessedMsg) :
    (parsed.gmail_message_id ≠ "" →
     normalizeKey parsed.sender_email ≠ "" →
     0 < parsed.amount_cents →
     s.processed.find?
        (fun g => g.gmail_message_id = parsed.gmail_message_id) = some p0 →
     (process_gmail_zelle_parsed_tx now parsed actor mode s).1.status
        = "duplicate" ∧
     (process_gmail_zelle_parsed_tx now parsed actor mode s).2 = s) ∧
    (pyStrip mid ≠ "" →
     s.processed.find? (fun g =>
        g.gmail_message_id = pyStrip mid && g.status = "added" &&
        g.movement_id.isSome) = some row →
     (s.reversals.find?
        (fun r => r.gmail_message_id = pyStrip mid)).isSome = true →
     admin_reverse_gmail_event_tx now mid u b s =
       (ReverseResult.already_reversed, s)) := by
  constructor
  · intro hmsg hsender hamt hfind
    rw [process_duplicate_short_circuit now parsed actor mode s p0 hmsg
      hsender hamt hfind]
    exact ⟨rfl, rfl⟩
  · intro hmid hfind hrev
    exact admin_reverse_already_reversed now mid u b s row hmid hfind hrev

/-- A parsed event as produced for a plain (non-bask) Gmail Zelle match. -/
def exampleParsed : ParsedEvent :=
  { gmail_message_id := "m1", thread_id := "t1", sender_email := "a@b.c",
    identity_key := "", identity_display := "", payer_display := "",
    sender_display_name := "Jane", subject := "Zelle", source_kind := "",
    confirmation_number := "", payer_key := "", bank_sender_email := "",
    to_line := "", amount_cents := 500 }

/-- The notes blob recorded with `exampleProcessedRow`. -/
def exampleNotes : Notes :=
  { identity_key := some "a@b.c", identity_display := some "a@b.c",
    is_new_sender := some true, auto_promoted := some false }

/-- The processed-messages row recorded when `exampleParsed` was first
applied to the ledger. -/
def exampleProcessedRow : ProcessedMsg :=
  { gmail_message_id := "m1", gmail_thread_id := "t1",
    sender_email := "a@b.c", subject := "Zelle",
    parsed_amount_cents := some 500, parsed_sender_name := "Jane",
    status := "added", movement_id := some 1, processed_at := 0,
    notes := some exampleNotes }

/-- An existing reversal record for event id `m1`. -/
def exampleReversalRow : Reversal :=
  { id := 1, gmail_message_id := "m1", original_movement_id := 1,
    reversal_movement_id := 2, payer_key := some "a@b.c",
    payer_display := some "a@b.c", amount_cents := 500,
    reason := "admin_reverse", reversed_by := 7, reversed_at := 10 }

/-- A state in which `exampleParsed`'s event id is already processed and
already has a reversal record. -/
def exampleDupState : DBState :=
  { initState with
    processed := [exampleProcessedRow]
    reversals := [exampleReversalRow] }

/-- Witness for C3: re-delivering `exampleParsed` to a state that already
processed event id `m1` yields `duplicate` with no state change, and a
second admin reversal of `m1` yields `already_reversed` with no change. -/
theorem C3_duplicate_event_noop_witness :
    ((process_gmail_zelle_parsed_tx 5 exampleParsed (some 7) "live"
        exampleDupState).1.status = "duplicate" ∧
     (process_gmail_zelle_parsed_tx 5 exampleParsed (some 7) "live"
        exampleDupState).2 = exampleDupState) ∧
    admin_reverse_gmail_event_tx 5 "m1" 7 false exampleDupState =
      (ReverseResult.already_reversed, exampleDupState) := by
  have h := C3_duplicate_event_noop 5 exampleParsed (some 7) "live"
    exampleDupState exampleProcessedRow "m1" 7 false exampleProcessedRow
  exact ⟨h.1 (by decide) (by decide) (by decide) (by decide),
    h.2 (by decide) (by decide) (by decide)⟩

/-- C10: undoing a latest `add` movement deletes only that movement row and
its confirmation row (plus the total/session update): the
processed-ingestion-messages table, the sender-trust table, the releases
table and the reversals table are all unchanged, so a previously recorded
event id keeps its `added` row, and re-delivering the same event id after
the undo is still classified `duplicate` with no state change — it is
never re-applied to the ledger. -/
theorem C10_undo_add_frame (s : DBState) (mv : Movement)
    (rest : List Movement) (hm : s.movements = mv :: rest)
    (hk : mv.kind = "add") :
    ((undo_last_movement_tx s).2.processed = s.processed ∧
     (undo_last_movement_tx s).2.sender_trust = s.sender_trust ∧
     (undo_last_movement_tx s).2.releases = s.releases ∧
     (undo_last_movement_tx s).2.reversals = s.reversals ∧
     (undo_last_movement_tx s).2.movements
        = s.movements.filter (fun m => m.id ≠ mv.id) ∧
     (undo_last_movement_tx s).2.confirmations
        = s.confirmations.filter (fun c => c.movement_id ≠ mv.id)) ∧
    (∀ (now2 : ℤ) (parsed : ParsedEvent) (actor : Option ℤ) (mode : String)
        (p0 : ProcessedMsg),
      parsed.gmail_message_id ≠ "" →
      normalizeKey parsed.sender_email ≠ "" →
      0 < parsed.amount_cents →
      (undo_last_movement_tx s).2.processed.find?
        (fun g => g.gmail_message_id = parsed.gmail_message_id) = some p0 →
      (process_gmail_zelle_parsed_tx now2 parsed actor mode
        (undo_last_movement_tx s).2).1.status = "duplicate" ∧
      (process_gmail_zelle_parsed_tx now2 parsed actor mode
        (undo_last_movement_tx s).2).2 = (undo_last_movement_tx s).2) := by
  constructor
  · rw [undo_eq_add s mv rest hm hk]
    refine ⟨rfl, rfl, rfl, rfl, ?_, rfl⟩
    rw [hm]
  · intro now2 parsed actor mode p0 hmsg hsender hamt hfind
    rw [process_duplicate_short_circuit now2 parsed actor mode
      (undo_last_movement_tx s).2 p0 hmsg hsender hamt hfind]
    exact ⟨rfl, rfl⟩

/-- The `add` movement created when `exampleParsed` was auto-ingested. -/
def exampleAddMovement : Movement :=
  { id := 1, session_id := 1, kind := "add", amount_cents := 500,
    total_after_cents := 500, actor_id := 7, created_at := 0 }

/-- A state right after the auto-ingested add of `exampleParsed`: total
500, one movement, the processed row and a quarantined sender-trust row. -/
def exampleTrustQuarantine : SenderTrust :=
  { id := 1, sender_email := "a@b.c", state := "quarantine",
    first_seen_at := 0, last_seen_at := 0, seen_count := 1,
    auto_promote_at := some AUTO_PROMOTE_SECONDS, approved_at := none,
    approved_by := none, blocked_at := none, blocked_by := none,
    last_matched_amount_cents := 500, last_matched_message_id := "m1",
    display_name_hint := some "Jane" }

/-- The state after `exampleParsed` was applied to the ledger in live mode. -/
def exampleAfterAddState : DBState :=
  { initState with
    total_cents := 500
    movements := [exampleAddMovement]
    next_movement_id := 2
    processed := [exampleProcessedRow]
    sender_trust := [exampleTrustQuarantine]
    next_trust_id := 2 }

/-- Witness for C10: undoing the ingested add of `exampleParsed` leaves its
processed row (status `added`) and the trust row in place, and re-delivery
of event id `m1` is still a no-op `duplicate`. -/
theorem C10_undo_add_frame_witness :
    ((undo_last_movement_tx exampleAfterAddState).2.processed
        = [exampleProcessedRow] ∧
     (undo_last_movement_tx exampleAfterAddState).2.sender_trust
        = [exampleTrustQuarantine] ∧
     (undo_last_movement_tx exampleAfterAddState).2.movements = []) ∧
    ((process_gmail_zelle_parsed_tx 9 exampleParsed (some 7) "live"
        (undo_last_movement_tx exampleAfterAddState).2).1.status
          = "duplicate" ∧
     (process_gmail_zelle_parsed_tx 9 exampleParsed (some 7) "live"
        (undo_last_movement_tx exampleAfterAddState).2).2
          = (undo_last_movement_tx exampleAfterAddState).2) := by
  have h := C10_undo_add_frame exampleAfterAddState exampleAddMovement []
    (by decide) (by decide)
  obtain ⟨⟨hp, ht, _, _, hmov, _⟩, hre⟩ := h
  refine ⟨⟨?_, ?_, ?_⟩, ?_⟩
  · rw [hp]; rfl
  · rw [ht]; rfl
  · rw [hmov]; decide

  · exact hre 9 exampleParsed (some 7) "live" exampleProcessedRow
      (by decide) (by decide) (by decide) (by rw [hp]; decide)

theorem find?_map_pres {α : Type} (p : α → Bool) (f : α → α) (l : List α)
    (hf : ∀ x, p (f x) = p x) :
    (l.map f).find? p = (l.find? p).map f := by
  induction l with
  | nil => rfl
  | cons x xs ih =>
    cases hpx : p x with
    | true => simp [List.find?, hf x, hpx]
    | false => simp [List.find?, hf x, hpx, ih]

theorem find?_updateById (tid : ℕ) (g : SenderTrust → SenderTrust)
    (l : List SenderTrust) (p : SenderTrust → Bool)
    (hp : ∀ x, p (g x) = p x) :
    (updateById tid g l).find? p
      = (l.find? p).map (fun t => if t.id = tid then g t else t) := by
  unfold updateById
  apply find?_map_pres
  intro x
  dsimp only
  split
  · exact hp x
  · rfl

theorem trustStep_promotes (now : ℤ) (ik idisp sdn mid : String) (amt : ℤ)
    (l : List SenderTrust) (ntid : ℕ) (tr : SenderTrust)
    (hfind : l.find? (fun t => t.sender_email = ik) = some tr)
    (hq : tr.state = "quarantine") (ap : ℤ)
    (hap : tr.auto_promote_at = some ap) (hle : ap ≤ now) :
    (trustStep now ik idisp sdn mid amt l ntid).state = "approved" ∧
    (trustStep now ik idisp sdn mid amt l ntid).auto_promoted = true ∧
    (trustStep now ik idisp sdn mid amt l ntid).trust.find?
        (fun t => t.sender_email = ik)
      = some (trustPromoteUpdate now (trustBookkeepingUpdate now idisp sdn
          mid amt (tr.seen_count + 1) tr)) := by
  unfold trustStep
  rw [hfind]
  dsimp only
  rw [hq, hap]
  rw [if_neg (by decide : ¬(("quarantine" : String) = ""))]
  rw [if_pos (by simp [hle])]
  refine ⟨rfl, rfl, ?_⟩
  dsimp only
  rw [find?_updateById tr.id (trustPromoteUpdate now)
      (updateById tr.id (trustBookkeepingUpdate now idisp sdn mid amt
        (tr.seen_count + 1)) l)
      (fun t => t.sender_email = ik) (fun x => rfl),
    find?_updateById tr.id (trustBookkeepingUpdate now idisp sdn mid amt
      (tr.seen_count + 1)) l
      (fun t => t.sender_email = ik) (fun x => rfl), hfind]
  simp [trustBookkeepingUpdate, trustPromoteUpdate]

theorem trustStep_quarantine_not_ripe (now : ℤ) (ik idisp sdn mid : String)
    (amt : ℤ) (l : List SenderTrust) (ntid : ℕ) (tr : SenderTrust)
    (hfind : l.find? (fun t => t.sender_email = ik) = some tr)
    (hq : tr.state = "quarantine")
    (hnr : tr.auto_promote_at = none ∨
      ∃ ap, tr.auto_promote_at = some ap ∧ now < ap) :
    (trustStep now ik idisp sdn mid amt l ntid).state = "quarantine" ∧
    (trustStep now ik idisp sdn mid amt l ntid).auto_promoted = false ∧
    (trustStep now ik idisp sdn mid amt l ntid).trust.find?
        (fun t => t.sender_email = ik)
      = some (trustBookkeepingUpdate now idisp sdn mid amt
          (tr.seen_count + 1) tr) := by
  have hpr : (match tr.auto_promote_at with
      | some ap => decide (ap ≤ now)
      | none => false) = false := by
    rcases hnr with h | ⟨ap, hap, hlt⟩
    · rw [h]
    · rw [hap]
      simp
      omega
  unfold trustStep
  rw [hfind]
  dsimp only
  rw [hq, hpr]
  rw [if_neg (by decide : ¬(("quarantine" : String) = ""))]
  rw [if_neg (by simp)]
  refine ⟨rfl, rfl, ?_⟩
  dsimp only
  rw [find?_updateById tr.id (trustBookkeepingUpdate now idisp sdn mid amt
      (tr.seen_count + 1)) l
      (fun t => t.sender_email = ik) (fun x => rfl), hfind]
  simp [trustBookkeepingUpdate]

theorem trustStep_keeps_state (now : ℤ) (ik idisp sdn mid : String)
    (amt : ℤ) (l : List SenderTrust) (ntid : ℕ) (tr : SenderTrust)
    (hfind : l.find? (fun t => t.sender_email = ik) = some tr)
    (hne : tr.state ≠ "quarantine") (hne' : tr.state ≠ "") :
    (trustStep now ik idisp sdn mid amt l ntid).state = tr.state ∧
    (trustStep now ik idisp sdn mid amt l ntid).auto_promoted = false ∧
    (trustStep now ik idisp sdn mid amt l ntid).trust.find?
        (fun t => t.sender_email = ik)
      = some (trustBookkeepingUpdate now idisp sdn mid amt
          (tr.seen_count + 1) tr) := by
  unfold trustStep
  rw [hfind]
  dsimp only
  rw [if_neg hne']
  rw [if_neg (by simp [hne])]
  refine ⟨rfl, rfl, ?_⟩
  dsimp only
  rw [find?_updateById tr.id (trustBookkeepingUpdate now idisp sdn mid amt
      (tr.seen_count + 1)) l
      (fun t => t.sender_email = ik) (fun x => rfl), hfind]
  simp [trustBookkeepingUpdate]

/-- The notes blob recorded for a `blocked_sender` outcome. -/
def blockedNotes (meta : Option Notes) (ik idisp : String) : Notes :=
  { meta.getD {} with
    identity_key := some ik
    identity_display := some idisp }

/-- The notes blob recorded for a shadow outcome (and for `added`). -/
def shadowNotes (meta : Option Notes) (ik idisp : String)
    (isNew autoProm : Bool) : Notes :=
  { meta.getD {} with
    identity_key := some ik
    identity_display := some idisp
    is_new_sender := some isNew
    auto_promoted := some autoProm }

theorem applyOutcome_blocked (now : ℤ) (parsed : ParsedEvent)
    (actor : Option ℤ) (mode : String) (meta : Option Notes)
    (ik idisp : String) (ts : TrustStepResult) (s1 : DBState)
    (hb : ts.state = "blocked") :
    applyOutcome now parsed actor mode meta ik idisp ts s1 =
      ({ status := "blocked_sender",
         sender_trust_id := some ts.sender_trust_id,
         sender_email := some ik, payer_display := some idisp },
       insertGmailProcessed now parsed "blocked_sender" none
         (some (blockedNotes meta ik idisp)) s1) := by
  unfold applyOutcome
  rw [if_pos hb]
  rfl

theorem applyOutcome_shadow (now : ℤ) (parsed : ParsedEvent)
    (actor : Option ℤ) (mode : String) (meta : Option Notes)
    (ik idisp : String) (ts : TrustStepResult) (s1 : DBState)
    (hnb : ts.state ≠ "blocked")
    (hsh : (decide (mode ≠ "live") || actor.isNone) = true) :
    applyOutcome now parsed actor mode meta ik idisp ts s1 =
      ({ status := "shadow_approved_match",
         sender_trust_id := some ts.sender_trust_id,
         sender_email := some ik, payer_display := some idisp,
         auto_promoted := some ts.auto_promoted,
         is_new_sender := some ts.is_new_sender, state := some ts.state },
       insertGmailProcessed now parsed "shadow_approved_match" none
         (some (shadowNotes meta ik idisp ts.is_new_sender
           ts.auto_promoted)) s1) := by
  unfold applyOutcome
  rw [if_neg hnb, if_pos hsh]
  rfl

/-- C8: a blocked sender's events never reach the ledger — for every
ingested event (any amount, any repetition) whose sender-trust row is in
state `blocked` at processing time, the pipeline records the event with
status `blocked_sender` and performs no ledger mutation: the total and the
movement log are unchanged. -/
theorem C8_blocked_sender_never_reaches_ledger (now : ℤ)
    (parsed : ParsedEvent) (actor : Option ℤ) (mode : String) (s : DBState)
    (tr : SenderTrust)
    (hmsg : parsed.gmail_message_id ≠ "")
    (hsender : normalizeKey parsed.sender_email ≠ "")
    (hamt : 0 < parsed.amount_cents)
    (hdup : s.processed.find?
        (fun g => g.gmail_message_id = parsed.gmail_message_id) = none)
    (hbask : (if parsed.source_kind = "bask_zelle" &&
          pyStrip parsed.confirmation_number ≠ "" then
        findBaskDuplicate (pyStrip parsed.confirmation_number)
          parsed.amount_cents s.processed
      else none) = none)
    (hfind : s.sender_trust.find?
        (fun t => t.sender_email = identityKeyOf parsed) = some tr)
    (hblocked : tr.state = "blocked") :
    (process_gmail_zelle_parsed_tx now parsed actor mode s).1.status
      = "blocked_sender" ∧
    (process_gmail_zelle_parsed_tx now parsed actor mode s).2.total_cents
      = s.total_cents ∧
    (process_gmail_zelle_parsed_tx now parsed actor mode s).2.movements
      = s.movements ∧
    ∃ newRow,
      (process_gmail_zelle_parsed_tx now parsed actor mode s).2.processed
        = newRow :: s.processed ∧
      newRow.status = "blocked_sender" := by
  have hts := trustStep_keeps_state now (identityKeyOf parsed)
    (identityDisplayOf parsed) parsed.sender_display_name
    parsed.gmail_message_id parsed.amount_cents s.sender_trust
    s.next_trust_id tr hfind
    (by rw [hblocked]; decide) (by rw [hblocked]; decide)
  rw [process_eq_applyOutcome now parsed actor mode s hmsg hsender hamt
    hdup hbask]
  rw [applyOutcome_blocked _ _ _ _ _ _ _ _ _ (by rw [hts.1, hblocked])]
  exact ⟨rfl, rfl, rfl, _, rfl, rfl⟩

/-- A blocked sender-trust row for `a@b.c`. -/
def exampleTrustBlocked : SenderTrust :=
  { id := 1, sender_email := "a@b.c", state := "blocked",
    first_seen_at := 0, last_seen_at := 0, seen_count := 3,
    auto_promote_at := none, approved_at := none, approved_by := none,
    blocked_at := some 50, blocked_by := some 7,
    last_matched_amount_cents := 500, last_matched_message_id := "m0",
    display_name_hint := some "Jane" }

/-- A state whose only sender-trust row (for `a@b.c`) is blocked. -/
def exampleBlockedState : DBState :=
  { initState with sender_trust := [exampleTrustBlocked], next_trust_id := 2 }

/-- Witness for C8: ingesting `exampleParsed` (sender `a@b.c`, blocked)
records `blocked_sender` and leaves total and movements unchanged. -/
theorem C8_blocked_sender_witness :
    (process_gmail_zelle_parsed_tx 60 exampleParsed (some 7) "live"
        exampleBlockedState).1.status = "blocked_sender" ∧
    (process_gmail_zelle_parsed_tx 60 exampleParsed (some 7) "live"
        exampleBlockedState).2.total_cents = 0 ∧
    (process_gmail_zelle_parsed_tx 60 exampleParsed (some 7) "live"
        exampleBlockedState).2.movements = [] := by
  have h := C8_blocked_sender_never_reaches_ledger 60 exampleParsed
    (some 7) "live" exampleBlockedState exampleTrustBlocked
    (by decide) (by decide) (by decide) (by decide) (by decide)
    (by decide) (by decide)
  exact ⟨h.1, h.2.1, h.2.2.1⟩

/-- C7: a quarantined sender identity auto-promotes to `approved`
(attributed to the system actor 0, with `auto_promote_at` cleared) exactly
when a matched event is processed at `now ≥ auto_promote_at`; an event
processed strictly before `auto_promote_at` leaves the row quarantined with
its `auto_promote_at` intact; and processing never changes the state of an
already-approved or blocked identity. -/
theorem C7_quarantine_auto_promotion (now : ℤ) (parsed : ParsedEvent)
    (actor : Option ℤ) (mode : String) (s : DBState) (tr : SenderTrust)
    (hmsg : parsed.gmail_message_id ≠ "")
    (hsender : normalizeKey parsed.sender_email ≠ "")
    (hamt : 0 < parsed.amount_cents)
    (hdup : s.processed.find?
        (fun g => g.gmail_message_id = parsed.gmail_message_id) = none)
    (hbask : (if parsed.source_kind = "bask_zelle" &&
          pyStrip parsed.confirmation_number ≠ "" then
        findBaskDuplicate (pyStrip parsed.confirmation_number)
          parsed.amount_cents s.processed
      else none) = none)
    (hfind : s.sender_trust.find?
        (fun t => t.sender_email = identityKeyOf parsed) = some tr) :
    (tr.state = "quarantine" → ∀ ap, tr.auto_promote_at = some ap →
      ap ≤ now →
      ∃ u, (process_gmail_zelle_parsed_tx now parsed actor mode
          s).2.sender_trust.find?
          (fun t => t.sender_email = identityKeyOf parsed) = some u ∧
        u.state = "approved" ∧ u.approved_by = some 0 ∧
        u.approved_at = some now ∧ u.auto_promote_at = none) ∧
    (tr.state = "quarantine" → ∀ ap, tr.auto_promote_at = some ap →
      now < ap →
      ∃ u, (process_gmail_zelle_parsed_tx now parsed actor mode
          s).2.sender_trust.find?
          (fun t => t.sender_email = identityKeyOf parsed) = some u ∧
        u.state = "quarantine" ∧ u.auto_promote_at = some ap) ∧
    (tr.state = "approved" ∨ tr.state = "blocked" →
      ∃ u, (process_gmail_zelle_parsed_tx now parsed actor mode
          s).2.sender_trust.find?
          (fun t => t.sender_email = identityKeyOf parsed) = some u ∧
        u.state = tr.state) := by
  rw [process_eq_applyOutcome now parsed actor mode s hmsg hsender hamt
    hdup hbask]
  rw [applyOutcome_sender_trust]
  refine ⟨?_, ?_, ?_⟩
  · intro hq ap hap hle
    have h := trustStep_promotes now (identityKeyOf parsed)
      (identityDisplayOf parsed) parsed.sender_display_name
      parsed.gmail_message_id parsed.amount_cents s.sender_trust
      s.next_trust_id tr hfind hq ap hap hle
    exact ⟨_, h.2.2, rfl, rfl, rfl, rfl⟩
  · intro hq ap hap hlt
    have h := trustStep_quarantine_not_ripe now (identityKeyOf parsed)
      (identityDisplayOf parsed) parsed.sender_display_name
      parsed.gmail_message_id parsed.amount_cents s.sender_trust
      s.next_trust_id tr hfind hq (Or.inr ⟨ap, hap, hlt⟩)
    refine ⟨_, h.2.2, ?_, ?_⟩
    · rw [trustBookkeepingUpdate, hq]
    · rw [trustBookkeepingUpdate, hap]
  · intro hor
    have hne : tr.state ≠ "quarantine" := by
      rcases hor with h | h <;> rw [h] <;> decide
    have hne' : tr.state ≠ "" := by
      rcases hor with h | h <;> rw [h] <;> decide
    have h := trustStep_keeps_state now (identityKeyOf parsed)
      (identityDisplayOf parsed) parsed.sender_display_name
      parsed.gmail_message_id parsed.amount_cents s.sender_trust
      s.next_trust_id tr hfind hne hne'
    exact ⟨_, h.2.2, rfl⟩

/-- A state whose only sender-trust row (for `a@b.c`) is quarantined with
`auto_promote_at = AUTO_PROMOTE_SECONDS`. -/
def exampleQuarantineState : DBState :=
  { initState with
    sender_trust := [exampleTrustQuarantine]
    next_trust_id := 2 }

/-- Witness for C7: the quarantined row for `a@b.c` (ripe at
`AUTO_PROMOTE_SECONDS`) is auto-promoted by a matched event processed at
that time: state `approved`, `approved_by` the system actor 0,
`auto_promote_at` cleared. -/
theorem C7_quarantine_auto_promotion_witness :
    ∃ u, (process_gmail_zelle_parsed_tx AUTO_PROMOTE_SECONDS exampleParsed
        none "shadow" exampleQuarantineState).2.sender_trust.find?
        (fun t => t.sender_email = identityKeyOf exampleParsed) = some u ∧
      u.state = "approved" ∧ u.approved_by = some 0 ∧
      u.approved_at = some AUTO_PROMOTE_SECONDS ∧
      u.auto_promote_at = none := by
  have h := C7_quarantine_auto_promotion AUTO_PROMOTE_SECONDS exampleParsed
    none "shadow" exampleQuarantineState exampleTrustQuarantine
    (by decide) (by decide) (by decide) (by decide) (by decide) (by decide)
  exact h.1 (by decide) AUTO_PROMOTE_SECONDS (by decide) (by decide)

/-- C5 counterexample: a first-seen identity processed while the effective
mode is not live is recorded with status `shadow_approved_match` (the
`is_new_sender` flag only lands in the notes blob), not
`quarantined_unknown_sender` as the claim requires for first-seen
identities. -/
theorem C5_counterexample_first_seen_status :
    (process_gmail_zelle_parsed_tx 0 exampleParsed none "shadow"
        initState).1.is_new_sender = some true ∧
    (process_gmail_zelle_parsed_tx 0 exampleParsed none "shadow"
        initState).1.status = "shadow_approved_match" ∧
    (process_gmail_zelle_parsed_tx 0 exampleParsed none "shadow"
        initState).1.status ≠ "quarantined_unknown_sender" := by
  refine ⟨?_, ?_, ?_⟩ <;> decide

/-- C5 (amended): for every ingested event from a non-blocked sender
processed while the effective mode is not live (mode ≠ "live" or no valid
actor), the pipeline skips the ledger mutation (total and movements
unchanged) and records a shadow outcome whose status is always
`shadow_approved_match`, whether or not the identity is first-seen; the
first-seen flag is recorded in the row's notes, not in the status. -/
theorem C5_shadow_mode_records_shadow_outcome (now : ℤ)
    (parsed : ParsedEvent) (actor : Option ℤ) (mode : String) (s : DBState)
    (hmsg : parsed.gmail_message_id ≠ "")
    (hsender : normalizeKey parsed.sender_email ≠ "")
    (hamt : 0 < parsed.amount_cents)
    (hdup : s.processed.find?
        (fun g => g.gmail_message_id = parsed.gmail_message_id) = none)
    (hbask : (if parsed.source_kind = "bask_zelle" &&
          pyStrip parsed.confirmation_number ≠ "" then
        findBaskDuplicate (pyStrip parsed.confirmation_number)
          parsed.amount_cents s.processed
      else none) = none)
    (hnb : (trustStep now (identityKeyOf parsed) (identityDisplayOf parsed)
        parsed.sender_display_name parsed.gmail_message_id
        parsed.amount_cents s.sender_trust s.next_trust_id).state
        ≠ "blocked")
    (hsh : (decide (mode ≠ "live") || actor.isNone) = true) :
    (process_gmail_zelle_parsed_tx now parsed actor mode s).1.status
      = "shadow_approved_match" ∧
    (process_gmail_zelle_parsed_tx now parsed actor mode s).2.total_cents
      = s.total_cents ∧
    (process_gmail_zelle_parsed_tx now parsed actor mode s).2.movements
      = s.movements ∧
    ∃ newRow,
      (process_gmail_zelle_parsed_tx now parsed actor mode s).2.processed
        = newRow :: s.processed ∧
      newRow.status = "shadow_approved_match" ∧
      ∃ n, newRow.notes = some n ∧
        n.is_new_sender = some (trustStep now (identityKeyOf parsed)
          (identityDisplayOf parsed) parsed.sender_display_name
          parsed.gmail_message_id parsed.amount_cents s.sender_trust
          s.next_trust_id).is_new_sender := by
  rw [process_eq_applyOutcome now parsed actor mode s hmsg hsender hamt
    hdup hbask]
  rw [applyOutcome_shadow _ _ _ _ _ _ _ _ _ hnb hsh]
  exact ⟨rfl, rfl, rfl, _, rfl, rfl, _, rfl, rfl⟩

/-- Witness for C5 (amended): a repeat (non-first-seen) event from the
quarantined `a@b.c` in shadow mode is recorded `shadow_approved_match`
with `is_new_sender = false` in the notes and no ledger change. -/
theorem C5_shadow_mode_witness :
    (process_gmail_zelle_parsed_tx 10 exampleParsed none "shadow"
        exampleQuarantineState).1.status = "shadow_approved_match" ∧
    (process_gmail_zelle_parsed_tx 10 exampleParsed none "shadow"
        exampleQuarantineState).2.total_cents = 0 ∧
    (process_gmail_zelle_parsed_tx 10 exampleParsed none "shadow"
        exampleQuarantineState).2.movements = [] := by
  have h := C5_shadow_mode_records_shadow_outcome 10 exampleParsed none
    "shadow" exampleQuarantineState
    (by decide) (by decide) (by decide) (by decide) (by decide)
    (by decide) (by decide)
  exact ⟨h.1, h.2.1, h.2.2.1⟩

/-- The parts of a successful `admin_reverse_gmail_event_tx` that the undo
claims need: the clamped total write, the untouched session, and the new
`reversal` movement at the head of the log. -/
theorem admin_reverse_success_parts (now : ℤ) (mid : String) (u : ℤ)
    (b : Bool) (s : DBState) (row : ProcessedMsg)
    (hmid : pyStrip mid ≠ "")
    (hfind : s.processed.find? (fun g =>
        g.gmail_message_id = pyStrip mid && g.status = "added" &&
        g.movement_id.isSome) = some row)
    (hnorev : s.reversals.find?
        (fun r => r.gmail_message_id = pyStrip mid) = none)
    (horig : (s.movements.find?
        (fun m => m.id = row.movement_id.getD 0)).isNone = false)
    (hamt : 0 < row.parsed_amount_cents.getD 0) :
    ((admin_reverse_gmail_event_tx now mid u b s).2.total_cents =
      if s.total_cents - row.parsed_amount_cents.getD 0 < 0 then 0
      else s.total_cents - row.parsed_amount_cents.getD 0) ∧
    (admin_reverse_gmail_event_tx now mid u b s).2.session_id
      = s.session_id ∧
    ∃ mv, (admin_reverse_gmail_event_tx now mid u b s).2.movements
        = mv :: s.movements ∧
      mv.kind = "reversal" ∧
      mv.amount_cents = row.parsed_amount_cents.getD 0 := by
  unfold admin_reverse_gmail_event_tx
  dsimp only
  rw [if_neg hmid, hfind]
  dsimp only
  rw [hnorev]
  rw [if_neg (by decide : ¬((none : Option Reversal).isSome = true))]
  rw [if_neg (by rw [horig]; decide)]
  rw [if_neg (by omega)]
  exact ⟨rfl, rfl, _, rfl, rfl, rfl⟩

/-- The `add` movement of the reversed auto-ingested event `m1`. -/
def cexAddMovement : Movement :=
  { id := 1, session_id := 1, kind := "add", amount_cents := 1000,
    total_after_cents := 1000, actor_id := 7, created_at := 0 }

/-- The `release` movement that zeroed the total after that add. -/
def cexReleaseMovement : Movement :=
  { id := 2, session_id := 1, kind := "release", amount_cents := 1000,
    total_after_cents := 0, actor_id := 7, created_at := 1 }

/-- The release row for that release (default 2% fee, $0.30 network fee). -/
def cexReleaseRow : ReleaseRow :=
  { id := 1, session_id := 1, released_total_cents := 1000,
    fee_cents := 20, network_fee_cents := 30, net_cents := 950,
    released_by := 7, released_at := 1 }

/-- The processed row of the auto-ingested event `m1` ($10.00, added as
movement 1). -/
def cexProcessedRow : ProcessedMsg :=
  { gmail_message_id := "m1", gmail_thread_id := "t1",
    sender_email := "a@b.c", subject := "Zelle",
    parsed_amount_cents := some 1000, parsed_sender_name := "Jane",
    status := "added", movement_id := some 1, processed_at := 0,
    notes := some exampleNotes }

/-- The reachable state after ingesting `m1` ($10.00) in live mode and then
releasing: total 0, session 2, the add and release movements logged. -/
def cexAfterReleaseState : DBState :=
  { total_cents := 0
    session_id := 2
    movements := [cexReleaseMovement, cexAddMovement]
    next_movement_id := 3
    confirmations := []
    releases := [cexReleaseRow]
    next_release_id := 2
    processed := [cexProcessedRow]
    sender_trust := [exampleTrustQuarantine]
    next_trust_id := 2
    reversals := []
    next_reversal_id := 1 }

/-- C2 counterexample: in the state reached by add($10.00), release, the
total is 0; an admin reversal of the $10.00 event clamps the total at 0
(losing the subtraction), and the following Undo adds the full $10.00 back,
yielding total 1000 — not the 0 that held before the reversal. Undo is
therefore not a true inverse of an admin reversal in every state. -/
theorem C2_counterexample_clamped_reversal :
    cexAfterReleaseState.total_cents = 0 ∧
    (admin_reverse_gmail_event_tx 2 "m1" 7 false cexAfterReleaseState).1 =
      ReverseResult.reversed "m1" 1000 "a@b.c" "a@b.c" 0 3 false ∧
    (undo_last_movement_tx
        (admin_reverse_gmail_event_tx 2 "m1" 7 false
          cexAfterReleaseState).2).2.total_cents = 1000 := by
  refine ⟨rfl, ?_, ?_⟩ <;> decide

/-- C2 (amended): Undo exactly inverts the immediately preceding Add(x)
(for every positive x and nonnegative prior total) and the immediately
preceding Release, restoring both `total_cents` and `session_id`; after an
admin Reversal, Undo always restores `session_id`, but it restores
`total_cents` exactly when the pre-reversal total was at least the reversed
amount — when the reversal clamped at 0, Undo yields the reversed amount
instead of the prior total. -/
theorem C2_undo_inverts_last_movement (f nf : ℚ)
    (now nowR now2 uid a u : ℤ) (b : Bool) (x : ℤ) (mid : String)
    (row : ProcessedMsg) (s : DBState) :
    (0 ≤ s.total_cents → 0 < x →
      (undo_last_movement_tx
          (add_amount_with_confirmation now uid x s).2).2.total_cents
        = s.total_cents ∧
      (undo_last_movement_tx
          (add_amount_with_confirmation now uid x s).2).2.session_id
        = s.session_id) ∧
    (0 < s.total_cents →
      (undo_last_movement_tx
          (release_current_total f nf nowR a s).2).2.total_cents
        = s.total_cents ∧
      (undo_last_movement_tx
          (release_current_total f nf nowR a s).2).2.session_id
        = s.session_id) ∧
    (pyStrip mid ≠ "" →
     s.processed.find? (fun g =>
        g.gmail_message_id = pyStrip mid && g.status = "added" &&
        g.movement_id.isSome) = some row →
     s.reversals.find?
        (fun r => r.gmail_message_id = pyStrip mid) = none →
     (s.movements.find?
        (fun m => m.id = row.movement_id.getD 0)).isNone = false →
     0 < row.parsed_amount_cents.getD 0 →
      (undo_last_movement_tx
          (admin_reverse_gmail_event_tx now2 mid u b s).2).2.session_id
        = s.session_id ∧
      ((undo_last_movement_tx
          (admin_reverse_gmail_event_tx now2 mid u b s).2).2.total_cents
        = s.total_cents ↔
        row.parsed_amount_cents.getD 0 ≤ s.total_cents)) := by
  refine ⟨?_, ?_, ?_⟩
  · intro hs hx
    have ht : (add_amount_with_confirmation now uid x s).2.total_cents
        = s.total_cents + x := rfl
    have hsid : (add_amount_with_confirmation now uid x s).2.session_id
        = s.session_id := rfl
    rw [undo_eq_add (add_amount_with_confirmation now uid x s).2
      { id := s.next_movement_id, session_id := s.session_id, kind := "add",
        amount_cents := x,
        total_after_cents := s.total_cents + x, actor_id := uid,
        created_at := now }
      s.movements rfl rfl]
    dsimp only
    rw [ht, hsid]
    constructor
    · rw [if_neg (by omega)]
      omega
    · rw [if_neg (by simp)]
  · intro hpos
    have hm : (release_current_total f nf nowR a s).2.movements =
        ({ id := s.next_movement_id, session_id := s.session_id,
           kind := "release", amount_cents := s.total_cents,
           total_after_cents := 0, actor_id := a,
           created_at := nowR } : Movement) :: s.movements := by
      unfold release_current_total
      rw [if_neg (by omega)]
    rw [undo_eq_release _ _ _ hm rfl]
    exact ⟨rfl, rfl⟩
  · intro hmid hfind hnorev horig hamt
    obtain ⟨htot, hsess, mv, hm, hk, hamt'⟩ :=
      admin_reverse_success_parts now2 mid u b s row hmid hfind hnorev
        horig hamt
    rw [undo_eq_reversal _ _ _ hm hk]
    dsimp only
    rw [htot, hamt', hsess]
    constructor
    · rfl
    · constructor
      · intro h
        by_contra hgt
        rw [if_pos (by omega)] at h
        omega
      · intro hle
        rw [if_neg (by omega)]
        omega

/-- Witness for C2 (amended): in the state after the $5.00 auto-ingested
add (total 500), (i) Add(300) then Undo restores total 500 and session 1;
(ii) Release then Undo restores them; (iii) admin reversal of the $5.00
event (no clamping, 500 ≤ 500) then Undo restores total 500. -/
theorem C2_undo_inverts_last_movement_witness :
    ((undo_last_movement_tx
        (add_amount_with_confirmation 20 7 300
          exampleAfterAddState).2).2.total_cents = 500 ∧
     (undo_last_movement_tx
        (add_amount_with_confirmation 20 7 300
          exampleAfterAddState).2).2.session_id = 1) ∧
    ((undo_last_movement_tx
        (release_current_total FEE_PCT_DEFAULT NETWORK_FEE_DEFAULT 21 7
          exampleAfterAddState).2).2.total_cents = 500 ∧
     (undo_last_movement_tx
        (release_current_total FEE_PCT_DEFAULT NETWORK_FEE_DEFAULT 21 7
          exampleAfterAddState).2).2.session_id = 1) ∧
    (undo_last_movement_tx
        (admin_reverse_gmail_event_tx 22 "m1" 7 false
          exampleAfterAddState).2).2.total_cents = 500 := by
  have h := C2_undo_inverts_last_movement FEE_PCT_DEFAULT
    NETWORK_FEE_DEFAULT 20 21 22 7 7 7 false 300 "m1"
    exampleProcessedRow exampleAfterAddState
  obtain ⟨h1, h2, h3⟩ := h
  have h3' := h3 (by decide) (by decide) (by decide) (by decide) (by decide)
  refine ⟨?_, ?_, ?_⟩
  · have := h1 (by decide) (by decide)
    exact ⟨by rw [this.1]; rfl, by rw [this.2]; rfl⟩
  · have := h2 (by decide)
    exact ⟨by rw [this.1]; rfl, by rw [this.2]; rfl⟩
  · rw [h3'.2.mpr (by decide)]
    rfl

end YozuTracker
